import Mathlib

/-!
Shallow embedding of the ADAM alert lifecycle manager (`app.py`).

The embedding models:
  * the backend dispatcher (`send_alert_with_curl`, `send_resolved_alert_with_curl`)
    as pure payload builders parameterised by the HTTP outcome of the POST;
  * the file-per-alert store (`alerts/` directory) as a list of stored files,
    each carrying the record and the file's last-modified time;
  * the coordinator operations (`send_alert`, `resolve_sent_alert`,
    `close_all_alerts`, `cleanup_old_alerts`, `bulk_generate_alerts`) as pure
    state-passing functions that also return the trace of payloads POSTed to
    the backend;
  * the auto-resolve timer body (`auto_resolve_alert`) as the pure function run
    when the timer wakes.

Timestamps are modelled as integers (seconds).  Python dicts are modelled as
association lists in insertion order with unique keys; assignment to an
existing key updates it in place, assignment to a fresh key appends.
-/

namespace Adam

/-- Default Alertmanager base URL (`ALERTMANAGER_URL` in `app.py`). -/
def ALERTMANAGER_URL : String := "http://localhost:9093"

/-- Python dict assignment `d[k] = v` on an insertion-ordered association
list: an existing binding of `k` is updated in place, otherwise `(k, v)` is
appended at the end. -/
def dictSet : List (String × String) → String → String → List (String × String)
  | [], k, v => [(k, v)]
  | p :: rest, k, v => if p.1 = k then (k, v) :: rest else p :: dictSet rest k v

/-- Python dict lookup `d[k]` (first binding wins; bindings are unique). -/
def dictGet : List (String × String) → String → Option String
  | [], _ => none
  | p :: rest, k => if p.1 = k then some p.2 else dictGet rest k

/-- Python `s.strip()`: drop whitespace from both ends.  (Implemented over
the character list so that it evaluates by kernel reduction.) -/
def pyStrip (s : String) : String :=
  ⟨((s.data.dropWhile Char.isWhitespace).reverse.dropWhile Char.isWhitespace).reverse⟩

/-- Python `s.endswith(c)` for a one-character suffix (the only form the
source uses). -/
def pyEndsWith (s : String) (c : Char) : Bool :=
  s.data.getLast? = some c

/-- Python `s[:-1]`: the string without its last character. -/
def pyDropLast (s : String) : String :=
  ⟨s.data.dropLast⟩

/-- Value of a run of decimal digits. -/
def digitsVal (l : List Char) : Nat :=
  l.foldl (fun acc c => acc * 10 + (c.toNat - 48)) 0

/-- Models Python `int(s)` for a decimal string: optional surrounding
whitespace, an optional sign, then a non-empty run of digits.  `none` models
`int` raising `ValueError`. -/
def pyInt (s : String) : Option Int :=
  let t := ((s.data.dropWhile Char.isWhitespace).reverse.dropWhile Char.isWhitespace).reverse
  let signed : Bool × List Char :=
    match t with
    | '-' :: rest => (true, rest)
    | '+' :: rest => (false, rest)
    | l => (false, l)
  if signed.2 ≠ [] ∧ signed.2.all Char.isDigit then
    some (if signed.1 then -(digitsVal signed.2 : Int) else (digitsVal signed.2 : Int))
  else
    none

/-- `parse_duration_to_seconds` (`app.py` 286-305).  `none` models the
uncaught `ValueError` raised by `int(duration_str[:-1])` when the prefix is
not a valid integer; every other branch returns seconds. -/
def parse_duration_to_seconds (duration_str : String) : Option Int :=
  if pyEndsWith duration_str 's' then
    (pyInt (pyDropLast duration_str)).map (fun n => n)
  else if pyEndsWith duration_str 'm' then
    (pyInt (pyDropLast duration_str)).map (fun n => n * 60)
  else if pyEndsWith duration_str 'h' then
    (pyInt (pyDropLast duration_str)).map (fun n => n * 3600)
  else
    some 300

/-- Outcome of the HTTP POST to `{ALERTMANAGER_URL}/api/v2/alerts`, as
classified by the `try`/`except` around `requests.post`. -/
inductive HttpOutcome where
  | ok
  | httpError (code : Nat) (text : String)
  | timeout
  | connectionError
  | unexpected (msg : String)
deriving Repr, DecidableEq

/-- Whether the POST returned HTTP 200. -/
def HttpOutcome.isOk : HttpOutcome → Bool
  | .ok => true
  | _ => false

/-- The JSON alert object POSTed to the backend: `{labels, annotations,
startsAt, endsAt}`.  `endsAt = none` models JSON `null`. -/
structure AlertPayload where
  labels : List (String × String)
  annotations : List (String × String)
  startsAt : Int
  endsAt : Option Int
deriving Repr, DecidableEq

/-- The custom-label / custom-annotation merge loop shared by both dispatch
functions: each `(k, v)` with both `k` and `v` non-empty (Python truthiness)
is assigned into the dict, shadowing a built-in of the same key. -/
def addCustoms (base customs : List (String × String)) : List (String × String) :=
  customs.foldl (fun d p => if p.1 ≠ "" ∧ p.2 ≠ "" then dictSet d p.1 p.2 else d) base

/-- Labels built by `send_alert_with_curl` / `send_resolved_alert_with_curl`:
`alertname`, `severity`, `service` first, then the caller labels merged in. -/
def buildLabels (summary severity service : String)
    (custom_labels : List (String × String)) : List (String × String) :=
  addCustoms [("alertname", summary), ("severity", severity), ("service", service)]
    custom_labels

/-- Annotations built by both dispatch functions: `summary`, `description`
first, then the caller annotations merged in. -/
def buildAnnotations (summary description : String)
    (custom_annotations : List (String × String)) : List (String × String) :=
  addCustoms [("summary", summary), ("description", description)] custom_annotations

/-- `send_alert_with_curl` (`app.py` 89-164): builds the firing payload
(`startsAt = now − 2 minutes`, `endsAt = null`) and classifies the POST
outcome into the `(success, message)` pair the source returns.  The third
component is the payload that was POSTed. -/
def send_alert_with_curl (now : Int) (summary description severity duration service : String)
    (custom_labels custom_annotations : List (String × String))
    (outcome : HttpOutcome) : Bool × String × AlertPayload :=
  let _ := duration
  let payload : AlertPayload :=
    { labels := buildLabels summary severity service custom_labels
      annotations := buildAnnotations summary description custom_annotations
      startsAt := now - 120
      endsAt := none }
  match outcome with
  | .ok => (true, "Alert sent successfully", payload)
  | .httpError code text =>
      (false, s!"Failed to send alert: HTTP {code} - {text}", payload)
  | .timeout => (false, "Timeout while sending alert", payload)
  | .connectionError =>
      (false, s!"Connection error. Cannot connect to Alertmanager at {ALERTMANAGER_URL}", payload)
  | .unexpected msg => (false, s!"Error sending alert: {msg}", payload)

/-- `send_resolved_alert_with_curl` (`app.py` 166-242): same payload but with
`endsAt = now`, and the resolved-alert message texts. -/
def send_resolved_alert_with_curl (now : Int) (summary description severity service : String)
    (custom_labels custom_annotations : List (String × String))
    (outcome : HttpOutcome) : Bool × String × AlertPayload :=
  let payload : AlertPayload :=
    { labels := buildLabels summary severity service custom_labels
      annotations := buildAnnotations summary description custom_annotations
      startsAt := now - 120
      endsAt := some now }
  match outcome with
  | .ok => (true, "Resolved alert sent successfully", payload)
  | .httpError code text =>
      (false, s!"Failed to send resolved alert: HTTP {code} - {text}", payload)
  | .timeout => (false, "Timeout while sending resolved alert", payload)
  | .connectionError =>
      (false, s!"Connection error. Cannot connect to Alertmanager at {ALERTMANAGER_URL}", payload)
  | .unexpected msg => (false, s!"Error sending resolved alert: {msg}", payload)

/-- One persisted alert record (the JSON body of `alerts/{id}.json`). -/
structure AlertRecord where
  id : String
  summary : String
  description : String
  severity : String
  service : String
  duration : String
  custom_labels : List (String × String)
  custom_annotations : List (String × String)
  sent_at : Int
  status : String
  resolved_at : Option Int
  auto_resolve_scheduled : Bool
deriving Repr, DecidableEq

/-- One file in the `alerts/` directory: the record plus the file's
last-modified time (used only by `cleanup_old_alerts`). -/
structure StoredFile where
  data : AlertRecord
  mtime : Int
deriving Repr, DecidableEq

/-- `load_sent_alerts` (`app.py` 485-502): reads every `*.json` file in the
alerts directory. -/
def load_sent_alerts (store : List StoredFile) : List AlertRecord :=
  store.map (fun f => f.data)

/-- `save_alert_to_file` (`app.py` 504-517): writes `alerts/{id}.json`,
overwriting a file of the same name; the file's mtime becomes `now`. -/
def save_alert_to_file (store : List StoredFile) (a : AlertRecord) (now : Int) :
    List StoredFile :=
  if store.any (fun f => f.data.id = a.id) then
    store.map (fun f => if f.data.id = a.id then ⟨a, now⟩ else f)
  else
    store ++ [⟨a, now⟩]

/-- `remove_alert_file` (`app.py` 519-534): returns `false` when the file is
absent, and when `os.remove` itself fails (modelled by the filesystem oracle
`fsRemoveOk`, in which case the file survives). -/
def remove_alert_file (fsRemoveOk : String → Bool) (store : List StoredFile)
    (alert_id : String) : Bool × List StoredFile :=
  if store.any (fun f => f.data.id = alert_id) then
    if fsRemoveOk alert_id then
      (true, store.filter (fun f => f.data.id ≠ alert_id))
    else
      (false, store)
  else
    (false, store)

/-- `update_alert_status` (`app.py` 536-560): rewrites the status field (and
`resolved_at` when given) of `alerts/{id}.json`; `false` when the file is
absent.  The rewrite refreshes the file's mtime. -/
def update_alert_status (store : List StoredFile) (alert_id status : String)
    (resolved_at : Option Int) (now : Int) : Bool × List StoredFile :=
  if store.any (fun f => f.data.id = alert_id) then
    (true, store.map (fun f =>
      if f.data.id = alert_id then
        ⟨{ f.data with
            status := status
            resolved_at := match resolved_at with
              | some t => some t
              | none => f.data.resolved_at }, now⟩
      else f))
  else
    (false, store)

/-- `add_sent_alert` (`app.py` 562-568). -/
def add_sent_alert (store : List StoredFile) (a : AlertRecord) (now : Int) :
    List StoredFile :=
  save_alert_to_file store a now

/-- `auto_resolve_alert` (`app.py` 244-284), from the point of view of its
effects: the task first parses the duration (an invalid duration raises
inside the task's `try`, so nothing at all happens), sleeps, then
unconditionally dispatches the resolved alert; only on a successful dispatch
(and a non-empty `alert_id`) does it update the record status and remove the
file — both of which return `false` and leave the store unchanged when the
record is already gone.  Returns the store afterwards and the list of
payloads dispatched to the backend. -/
def auto_resolve_alert (now : Int) (fsRemoveOk : String → Bool)
    (outcome : HttpOutcome)
    (duration_str summary description severity service : String)
    (custom_labels custom_annotations : List (String × String))
    (alert_id : String) (store : List StoredFile) :
    List StoredFile × List AlertPayload :=
  match parse_duration_to_seconds duration_str with
  | none => (store, [])
  | some _ =>
    let r := send_resolved_alert_with_curl now summary description severity service
      custom_labels custom_annotations outcome
    if r.1 then
      if alert_id ≠ "" then
        let u := update_alert_status store alert_id "resolved" (some now) now
        let rm := remove_alert_file fsRemoveOk u.2 alert_id
        (rm.2, [r.2.2])
      else
        (store, [r.2.2])
    else
      (store, [r.2.2])

/-- `resolve_sent_alert` (`app.py` 574-603): looks the id up among the loaded
alerts; at the first match it dispatches the resolve and, on success, removes
the file.  When no record matches, the loop falls through and the function
returns `None` — modelled as `none`.  Also returns the store afterwards and
the dispatch trace. -/
def resolve_sent_alert (now : Int) (fsRemoveOk : String → Bool)
    (outcome : HttpOutcome) (store : List StoredFile) (alert_id : String) :
    Option (Bool × String) × List StoredFile × List AlertPayload :=
  match store.find? (fun f => f.data.id = alert_id) with
  | none => (none, store, [])
  | some f =>
    let a := f.data
    let r := send_resolved_alert_with_curl now a.summary a.description a.severity
      a.service a.custom_labels a.custom_annotations outcome
    if r.1 then
      let rm := remove_alert_file fsRemoveOk store alert_id
      if rm.1 then
        (some (true, "Alert resolved successfully"), rm.2, [r.2.2])
      else
        (some (true, "Alert resolved but file cleanup failed"), rm.2, [r.2.2])
    else
      (some (false, r.2.1), store, [r.2.2])

/-- `resolve_alert_endpoint` (`app.py` 790-794): unpacks the pair returned by
`resolve_sent_alert`.  When that function fell through and returned `None`,
the unpacking `success, message = ...` raises a `TypeError`, modelled as
`Except.error`. -/
def resolve_alert_endpoint (now : Int) (fsRemoveOk : String → Bool)
    (outcome : HttpOutcome) (store : List StoredFile) (alert_id : String) :
    Except String (Bool × String) × List StoredFile × List AlertPayload :=
  match resolve_sent_alert now fsRemoveOk outcome store alert_id with
  | (none, st, ds) => (.error "TypeError: cannot unpack non-iterable NoneType object", st, ds)
  | (some r, st, ds) => (.ok r, st, ds)

/-- The loop body of `close_all_alerts` (`app.py` 612-637), iterating the
snapshot of loaded alerts while threading the live store, the success count,
the error list and the dispatch trace. -/
def closeAllGo (now : Int) (fsRemoveOk : String → Bool)
    (outcome : String → HttpOutcome) :
    List AlertRecord → List StoredFile → Nat → List String → List AlertPayload →
    Nat × List String × List StoredFile × List AlertPayload
  | [], store, closed, errors, ds => (closed, errors, store, ds)
  | a :: rest, store, closed, errors, ds =>
    let sm := a.summary
    let r := send_resolved_alert_with_curl now a.summary a.description a.severity
      a.service a.custom_labels a.custom_annotations (outcome a.id)
    if r.1 then
      let rm := remove_alert_file fsRemoveOk store a.id
      if rm.1 then
        closeAllGo now fsRemoveOk outcome rest rm.2 (closed + 1) errors (ds ++ [r.2.2])
      else
        closeAllGo now fsRemoveOk outcome rest rm.2 closed
          (errors ++ [s!"Alert \x27{sm}\x27 resolved but file removal failed"]) (ds ++ [r.2.2])
    else
      let msg := r.2.1
      closeAllGo now fsRemoveOk outcome rest store closed
        (errors ++ [s!"Failed to resolve alert \x27{sm}\x27: {msg}"]) (ds ++ [r.2.2])

/-- `close_all_alerts` (`app.py` 605-643): snapshots the loaded alerts and
runs the loop; returns `(closed_count, errors)` plus the final store and the
dispatch trace. -/
def close_all_alerts (now : Int) (fsRemoveOk : String → Bool)
    (outcome : String → HttpOutcome) (store : List StoredFile) :
    Nat × List String × List StoredFile × List AlertPayload :=
  closeAllGo now fsRemoveOk outcome (load_sent_alerts store) store 0 [] []

/-- `cleanup_old_alerts` (`app.py` 645-670): removes every alert file whose
mtime is strictly before `now − days_old` days, counts the removals, and
never talks to the backend (the third component is the — empty — dispatch
trace). -/
def cleanup_old_alerts (now : Int) (days_old : Int) (store : List StoredFile) :
    Nat × List StoredFile × List AlertPayload :=
  let cutoff := now - days_old * 86400
  ((store.filter (fun f => f.mtime < cutoff)).length,
   store.filter (fun f => ¬ f.mtime < cutoff),
   [])

/-- The persisted form-field history (`form_history.json`). -/
structure FormHistory where
  summaries : List String
  descriptions : List String
  services : List String
  severities : List String
  durations : List String
  custom_labels : List String
  custom_annotations : List String
deriving Repr, DecidableEq

/-- `add_to_history` (`app.py` 82-87): prepend a non-empty, not-yet-present
value and keep the first 10 entries. -/
def add_to_history (h : List String) (value : String) : List String :=
  if value ≠ "" ∧ value ∉ h then (value :: h).take 10 else h

/-- A scheduled auto-resolve task (`asyncio.create_task(auto_resolve_alert(...))`):
the arguments the coroutine was started with. -/
structure TimerTask where
  duration : String
  summary : String
  description : String
  severity : String
  service : String
  custom_labels : List (String × String)
  custom_annotations : List (String × String)
  alert_id : String
deriving Repr, DecidableEq

/-- The mutable state `send_alert` touches: the alerts directory, the set of
armed timers, and the form history file. -/
structure SendState where
  store : List StoredFile
  timers : List TimerTask
  history : FormHistory
deriving Repr, DecidableEq

/-- The `form_data` dict echoed into the rendered template. -/
structure FormData where
  summary : String
  description : String
  severity : String
  duration : String
  service : String
  custom_labels : List (String × String)
  custom_annotations : List (String × String)
deriving Repr, DecidableEq

/-- The parts of the rendered `index.html` response the claims are about. -/
structure FireResponse where
  message : String
  message_type : String
  form_data : FormData
deriving Repr, DecidableEq

/-- The custom label / annotation assembly loop at the top of `send_alert`
(`app.py` 345-355): pairs up `keys[i]` with `values[i]`, skipping indices
where either strips to empty or where `values` is too short. -/
def build_custom (keys vals : List String) : List (String × String) :=
  (List.range keys.length).foldl (fun d i =>
    let key := pyStrip (keys.getD i "")
    let val := pyStrip (vals.getD i "")
    if i < vals.length ∧ key ≠ "" ∧ val ≠ "" then dictSet d key val else d) []

/-- All five required form fields strip to non-empty strings
(`app.py` 359). -/
def requiredFieldsFilled (summary description severity duration service : String) : Prop :=
  (pyStrip summary) ≠ "" ∧ (pyStrip description) ≠ "" ∧ (pyStrip severity) ≠ "" ∧
    (pyStrip duration) ≠ "" ∧ (pyStrip service) ≠ ""

instance (summary description severity duration service : String) :
    Decidable (requiredFieldsFilled summary description severity duration service) :=
  inferInstanceAs (Decidable (_ ∧ _ ∧ _ ∧ _ ∧ _))

/-- `send_alert`, the `POST /` handler (`app.py` 328-483): builds the custom
dicts, validates, dispatches, and on success creates the record (with the
fresh id `newId`), arms the timer and updates the history.  Returns the
rendered response, the new state and the dispatch trace. -/
def send_alert (now : Int) (newId : String) (outcome : HttpOutcome)
    (summary description severity duration service : String)
    (label_keys label_values annotation_keys annotation_values : List String)
    (st : SendState) : FireResponse × SendState × List AlertPayload :=
  let custom_labels := build_custom label_keys label_values
  let custom_annotations := build_custom annotation_keys annotation_values
  let echo : FormData :=
    { summary := summary, description := description, severity := severity
      duration := duration, service := service
      custom_labels := custom_labels, custom_annotations := custom_annotations }
  if ¬ requiredFieldsFilled summary description severity duration service then
    ({ message := "All required fields must be filled", message_type := "error"
       form_data := echo }, st, [])
  else if severity ∉ ["info", "warning", "critical"] then
    ({ message := "Invalid severity level", message_type := "error"
       form_data := echo }, st, [])
  else
    let r := send_alert_with_curl now (pyStrip summary) (pyStrip description) (pyStrip severity)
      (pyStrip duration) (pyStrip service) custom_labels custom_annotations outcome
    if r.1 then
      let record : AlertRecord :=
        { id := newId, summary := (pyStrip summary), description := (pyStrip description)
          severity := (pyStrip severity), service := (pyStrip service), duration := (pyStrip duration)
          custom_labels := custom_labels, custom_annotations := custom_annotations
          sent_at := now, status := "active", resolved_at := none
          auto_resolve_scheduled := true }
      let task : TimerTask :=
        { duration := (pyStrip duration), summary := (pyStrip summary)
          description := (pyStrip description), severity := (pyStrip severity)
          service := (pyStrip service), custom_labels := custom_labels
          custom_annotations := custom_annotations, alert_id := newId }
      let h := st.history
      let h :=
        { h with
            summaries := add_to_history h.summaries (pyStrip summary)
            descriptions := add_to_history h.descriptions (pyStrip description)
            services := add_to_history h.services (pyStrip service)
            severities := add_to_history h.severities (pyStrip severity)
            durations := add_to_history h.durations (pyStrip duration) }
      ({ message := r.2.1, message_type := "success"
         form_data := { summary := "", description := "", severity := ""
                        duration := "", service := ""
                        custom_labels := [], custom_annotations := [] } },
       { store := add_sent_alert st.store record now
         timers := st.timers ++ [task]
         history := h },
       [r.2.2])
    else
      ({ message := r.2.1, message_type := "error", form_data := echo }, st, [r.2.2])

/-- The fixed noun pool of `bulk_generate_alerts` (`app.py` 693-696). -/
def summary_nouns : List String :=
  ["Database", "Connection", "Memory", "CPU", "Disk", "Network", "Service", "API",
   "Cache", "Queue", "Timeout", "Error", "Failure", "Warning", "Critical",
   "Overflow", "Underflow", "Server", "Client", "Process"]

/-- The fixed adjective pool (`app.py` 698-701). -/
def summary_adjectives : List String :=
  ["High", "Low", "Critical", "Warning", "Error", "Failed", "Slow", "Fast",
   "Overloaded", "Underutilized", "Broken", "Unstable", "Degraded", "Unavailable",
   "Responsive", "Unresponsive", "Healthy", "Unhealthy"]

/-- The fixed description-phrase pool (`app.py` 703-707). -/
def description_words : List String :=
  ["is experiencing issues", "has high latency", "is running out of resources",
   "is not responding", "has exceeded threshold", "is down", "is slow",
   "is overloaded", "has errors", "needs attention", "requires maintenance",
   "is unstable", "has performance problems", "is failing", "is degraded"]

/-- The fixed service-name pool (`app.py` 710-715). -/
def service_names : List String :=
  ["auth-service", "api-gateway", "user-service", "payment-service",
   "notification-service", "database-service", "cache-service", "queue-service",
   "storage-service", "monitoring-service", "frontend-app", "backend-api",
   "mobile-api", "admin-panel", "analytics-service", "search-service",
   "email-service", "sms-service", "file-service", "log-service"]

/-- The severity pool (`app.py` 717). -/
def severities : List String := ["info", "warning", "critical"]

/-- `random.choice(pool)` with the random draw supplied from outside as an
arbitrary natural number, reduced modulo the pool size. -/
def choice (pool : List String) (i : Nat) : String :=
  pool.getD (i % pool.length) ""

/-- One iteration's worth of random draws in `bulk_generate_alerts`. -/
structure BulkPick where
  noun : Nat
  adj : Nat
  descIdx : Nat
  sev : Nat
  svc : Nat

/-- The random alert data built in iteration `i` of `bulk_generate_alerts`
(`app.py` 727-731): `(summary, description, severity, service)`. -/
def bulkAlertData (pick : Nat → BulkPick) (i : Nat) : String × String × String × String :=
  let p := pick i
  let summary := choice summary_nouns p.noun ++ choice summary_adjectives p.adj
  (summary, summary ++ " " ++ choice description_words p.descIdx,
   choice severities p.sev, choice service_names p.svc)

/-- The loop body of `bulk_generate_alerts` (`app.py` 725-775) over the list
of iteration indices, threading `(generated_count, errors, store, timers,
dispatch trace)`. -/
def bulkGo (now : Int) (duration : String) (pick : Nat → BulkPick)
    (outcome : Nat → HttpOutcome) (ids : Nat → String) :
    List Nat → Nat → List String → List StoredFile → List TimerTask →
    List AlertPayload → Nat × List String × List StoredFile × List TimerTask × List AlertPayload
  | [], generated, errors, store, timers, ds => (generated, errors, store, timers, ds)
  | i :: rest, generated, errors, store, timers, ds =>
    let d := bulkAlertData pick i
    let r := send_alert_with_curl now d.1 d.2.1 d.2.2.1 duration d.2.2.2 [] [] (outcome i)
    if r.1 then
      let record : AlertRecord :=
        { id := ids i, summary := d.1, description := d.2.1, severity := d.2.2.1
          service := d.2.2.2, duration := duration, custom_labels := []
          custom_annotations := [], sent_at := now, status := "active"
          resolved_at := none, auto_resolve_scheduled := true }
      let task : TimerTask :=
        { duration := duration, summary := d.1, description := d.2.1
          severity := d.2.2.1, service := d.2.2.2, custom_labels := []
          custom_annotations := [], alert_id := ids i }
      bulkGo now duration pick outcome ids rest (generated + 1) errors
        (add_sent_alert store record now) (timers ++ [task]) (ds ++ [r.2.2])
    else
      let n := i + 1
      let msg := r.2.1
      bulkGo now duration pick outcome ids rest generated
        (errors ++ [s!"Alert {n}: {msg}"]) store timers (ds ++ [r.2.2])

/-- `bulk_generate_alerts` (`app.py` 682-788): runs the loop for
`count` iterations and returns `(generated_count, errors)` plus the new
store, the armed timers and the dispatch trace. -/
def bulk_generate_alerts (now : Int) (count : Nat) (duration : String)
    (pick : Nat → BulkPick) (outcome : Nat → HttpOutcome) (ids : Nat → String)
    (store : List StoredFile) (timers : List TimerTask) :
    Nat × List String × List StoredFile × List TimerTask × List AlertPayload :=
  bulkGo now duration pick outcome ids (List.range count) 0 [] store timers []

/-- A concrete record used by the witness theorems. -/
def demoRecord : AlertRecord :=
  { id := "a1", summary := "S", description := "D", severity := "info"
    service := "svc", duration := "5m", custom_labels := []
    custom_annotations := [], sent_at := 0, status := "active"
    resolved_at := none, auto_resolve_scheduled := true }

/-- A second concrete record with a different id, used by the witnesses. -/
def demoRecord2 : AlertRecord :=
  { demoRecord with id := "a2", summary := "T", severity := "critical" }

/-- `demoRecord` stored with mtime 0. -/
def demoFile : StoredFile := ⟨demoRecord, 0⟩

/-- `demoRecord2` stored with mtime 1000000. -/
def demoFile2 : StoredFile := ⟨demoRecord2, 1000000⟩

/-- An empty form history, used by the witness theorems. -/
def demoHistory : FormHistory :=
  { summaries := [], descriptions := [], services := [], severities := []
    durations := [], custom_labels := [], custom_annotations := [] }

/-- A concrete coordinator state with one stored alert and no timers. -/
def demoState : SendState :=
  { store := [demoFile], timers := [], history := demoHistory }

/-- What the spec requires of the `labels` of a dispatched payload, given the
caller labels `cls`: each built-in is present unless a caller label shadows
it, and every caller label is merged in. -/
def labelsContract (summary severity service : String)
    (cls L : List (String × String)) : Prop :=
  ((∀ p ∈ cls, p.1 ≠ "alertname") → dictGet L "alertname" = some summary) ∧
  ((∀ p ∈ cls, p.1 ≠ "severity") → dictGet L "severity" = some severity) ∧
  ((∀ p ∈ cls, p.1 ≠ "service") → dictGet L "service" = some service) ∧
  (∀ p ∈ cls, dictGet L p.1 = some p.2)

/-- What the spec requires of the `annotations` of a dispatched payload. -/
def annotationsContract (summary description : String)
    (cas A : List (String × String)) : Prop :=
  ((∀ p ∈ cas, p.1 ≠ "summary") → dictGet A "summary" = some summary) ∧
  ((∀ p ∈ cas, p.1 ≠ "description") → dictGet A "description" = some description) ∧
  (∀ p ∈ cas, dictGet A p.1 = some p.2)

theorem dictGet_dictSet_self (d : List (String × String)) (k v : String) :
    dictGet (dictSet d k v) k = some v := by
  induction d with
  | nil => simp [dictSet, dictGet]
  | cons p rest ih =>
    by_cases h : p.1 = k
    · simp [dictSet, dictGet, h]
    · simp [dictSet, dictGet, h, ih]

theorem dictGet_dictSet_ne (d : List (String × String)) (k v k' : String)
    (h : k' ≠ k) : dictGet (dictSet d k v) k' = dictGet d k' := by
  induction d with
  | nil =>
    simp only [dictSet, dictGet]
    rw [if_neg (fun hh : k = k' => h hh.symm)]
  | cons p rest ih =>
    by_cases hp : p.1 = k
    · simp only [dictSet, if_pos hp, dictGet]
      rw [if_neg (fun hh : k = k' => h hh.symm),
        if_neg (fun hh : p.1 = k' => h (hh.symm.trans hp))]
    · simp only [dictSet, if_neg hp, dictGet]
      by_cases hp' : p.1 = k'
      · rw [if_pos hp', if_pos hp']
      · rw [if_neg hp', if_neg hp', ih]

theorem dictGet_addCustoms_not_mem (customs : List (String × String)) :
    ∀ (base : List (String × String)) (k : String),
      (∀ p ∈ customs, p.1 ≠ k) →
      dictGet (addCustoms base customs) k = dictGet base k := by
  induction customs with
  | nil => intro base k _; rfl
  | cons p rest ih =>
    intro base k h
    have hrest : ∀ q ∈ rest, q.1 ≠ k := fun q hq => h q (List.mem_cons_of_mem p hq)
    have hstep : addCustoms base (p :: rest) =
        addCustoms (if p.1 ≠ "" ∧ p.2 ≠ "" then dictSet base p.1 p.2 else base) rest := rfl
    rw [hstep, ih _ k hrest]
    by_cases hpe : p.1 ≠ "" ∧ p.2 ≠ ""
    · simp only [if_pos hpe]
      exact dictGet_dictSet_ne base p.1 p.2 k (fun hk => h p (List.mem_cons_self p rest) hk.symm)
    · simp [if_neg hpe]

theorem dictGet_addCustoms_mem (customs : List (String × String)) :
    ∀ (base : List (String × String)) (k v : String),
      (customs.map Prod.fst).Nodup → (k, v) ∈ customs → k ≠ "" → v ≠ "" →
      dictGet (addCustoms base customs) k = some v := by
  induction customs with
  | nil => intro base k v _ hmem; cases hmem
  | cons p rest ih =>
    intro base k v hnd hmem hk hv
    have hnd' : (rest.map Prod.fst).Nodup := (List.nodup_cons.mp hnd).2
    have hstep : addCustoms base (p :: rest) =
        addCustoms (if p.1 ≠ "" ∧ p.2 ≠ "" then dictSet base p.1 p.2 else base) rest := rfl
    rcases List.mem_cons.mp hmem with heq | hmem'
    · have hp1 : p.1 = k := by rw [← heq]
      have hp2 : p.2 = v := by rw [← heq]
      have hrest : ∀ q ∈ rest, q.1 ≠ k := by
        intro q hq hqk
        have : p.1 ∈ rest.map Prod.fst := by
          rw [hp1, ← hqk]; exact List.mem_map_of_mem Prod.fst hq
        exact (List.nodup_cons.mp hnd).1 this
      rw [hstep, dictGet_addCustoms_not_mem rest _ k hrest]
      have hpe : p.1 ≠ "" ∧ p.2 ≠ "" := ⟨by rw [hp1]; exact hk, by rw [hp2]; exact hv⟩
      simp only [if_pos hpe]
      rw [hp1, hp2]
      exact dictGet_dictSet_self base k v
    · rw [hstep]
      exact ih _ k v hnd' hmem' hk hv

theorem buildLabels_contract (summary severity service : String)
    (cls : List (String × String))
    (hne : ∀ p ∈ cls, p.1 ≠ "" ∧ p.2 ≠ "") (hnd : (cls.map Prod.fst).Nodup) :
    labelsContract summary severity service cls
      (buildLabels summary severity service cls) := by
  refine ⟨fun h => ?_, fun h => ?_, fun h => ?_, fun p hp => ?_⟩
  · rw [buildLabels, dictGet_addCustoms_not_mem cls _ _ h]; rfl
  · rw [buildLabels, dictGet_addCustoms_not_mem cls _ _ h]; rfl
  · rw [buildLabels, dictGet_addCustoms_not_mem cls _ _ h]; rfl
  · have := hne p hp
    exact dictGet_addCustoms_mem cls _ p.1 p.2 hnd (by simpa using hp) this.1 this.2

theorem buildAnnotations_contract (summary description : String)
    (cas : List (String × String))
    (hne : ∀ p ∈ cas, p.1 ≠ "" ∧ p.2 ≠ "") (hnd : (cas.map Prod.fst).Nodup) :
    annotationsContract summary description cas
      (buildAnnotations summary description cas) := by
  refine ⟨fun h => ?_, fun h => ?_, fun p hp => ?_⟩
  · rw [buildAnnotations, dictGet_addCustoms_not_mem cas _ _ h]; rfl
  · rw [buildAnnotations, dictGet_addCustoms_not_mem cas _ _ h]; rfl
  · have := hne p hp
    exact dictGet_addCustoms_mem cas _ p.1 p.2 hnd (by simpa using hp) this.1 this.2

theorem send_alert_with_curl_fst (now : Int)
    (summary description severity duration service : String)
    (cls cas : List (String × String)) (outcome : HttpOutcome) :
    (send_alert_with_curl now summary description severity duration service
      cls cas outcome).1 = outcome.isOk := by
  cases outcome <;> rfl

theorem send_resolved_alert_with_curl_fst (now : Int)
    (summary description severity service : String)
    (cls cas : List (String × String)) (outcome : HttpOutcome) :
    (send_resolved_alert_with_curl now summary description severity service
      cls cas outcome).1 = outcome.isOk := by
  cases outcome <;> rfl

theorem send_alert_with_curl_payload (now : Int)
    (summary description severity duration service : String)
    (cls cas : List (String × String)) (outcome : HttpOutcome) :
    (send_alert_with_curl now summary description severity duration service
      cls cas outcome).2.2 =
    { labels := buildLabels summary severity service cls
      annotations := buildAnnotations summary description cas
      startsAt := now - 120
      endsAt := none } := by
  cases outcome <;> rfl

theorem send_resolved_alert_with_curl_payload (now : Int)
    (summary description severity service : String)
    (cls cas : List (String × String)) (outcome : HttpOutcome) :
    (send_resolved_alert_with_curl now summary description severity service
      cls cas outcome).2.2 =
    { labels := buildLabels summary severity service cls
      annotations := buildAnnotations summary description cas
      startsAt := now - 120
      endsAt := some now } := by
  cases outcome <;> rfl

/-- Claim C9: for every alert, both the fire and the resolve dispatch build a
payload whose labels contain at minimum `alertname`=summary, `severity` and
`service` with all caller labels merged in (caller labels may shadow the
built-ins), whose annotations contain at minimum `summary` and `description`
with caller annotations merged in, whose `startsAt` equals now minus exactly
2 minutes, and whose `endsAt` is null for fire and now for resolve.  (Caller
labels/annotations, as assembled by the coordinator, have non-empty unique
keys and non-empty values.) -/
theorem c9_payload_contract (now : Int)
    (summary description severity duration service : String)
    (cls cas : List (String × String)) (outcome : HttpOutcome)
    (hl : ∀ p ∈ cls, p.1 ≠ "" ∧ p.2 ≠ "") (hln : (cls.map Prod.fst).Nodup)
    (ha : ∀ p ∈ cas, p.1 ≠ "" ∧ p.2 ≠ "") (han : (cas.map Prod.fst).Nodup) :
    (labelsContract summary severity service cls
      (send_alert_with_curl now summary description severity duration service
        cls cas outcome).2.2.labels ∧
     annotationsContract summary description cas
      (send_alert_with_curl now summary description severity duration service
        cls cas outcome).2.2.annotations ∧
     (send_alert_with_curl now summary description severity duration service
        cls cas outcome).2.2.startsAt = now - 120 ∧
     (send_alert_with_curl now summary description severity duration service
        cls cas outcome).2.2.endsAt = none) ∧
    (labelsContract summary severity service cls
      (send_resolved_alert_with_curl now summary description severity service
        cls cas outcome).2.2.labels ∧
     annotationsContract summary description cas
      (send_resolved_alert_with_curl now summary description severity service
        cls cas outcome).2.2.annotations ∧
     (send_resolved_alert_with_curl now summary description severity service
        cls cas outcome).2.2.startsAt = now - 120 ∧
     (send_resolved_alert_with_curl now summary description severity service
        cls cas outcome).2.2.endsAt = some now) := by
  rw [send_alert_with_curl_payload, send_resolved_alert_with_curl_payload]
  exact ⟨⟨buildLabels_contract summary severity service cls hl hln,
          buildAnnotations_contract summary description cas ha han, rfl, rfl⟩,
         ⟨buildLabels_contract summary severity service cls hl hln,
          buildAnnotations_contract summary description cas ha han, rfl, rfl⟩⟩

/-- Witness for C9 at a concrete input: one custom label that shadows the
built-in `severity`, one ordinary custom label, one custom annotation. -/
theorem c9_payload_contract_witness :
    ((∀ p ∈ ([("severity", "high"), ("team", "devops")] : List (String × String)),
        p.1 ≠ "" ∧ p.2 ≠ "") ∧
     (([("severity", "high"), ("team", "devops")] : List (String × String)).map
        Prod.fst).Nodup ∧
     (∀ p ∈ ([("runbook", "wiki/db")] : List (String × String)), p.1 ≠ "" ∧ p.2 ≠ "") ∧
     (([("runbook", "wiki/db")] : List (String × String)).map Prod.fst).Nodup) ∧
    (labelsContract "DBDown" "critical" "db" [("severity", "high"), ("team", "devops")]
      (send_alert_with_curl 1000 "DBDown" "db is down" "critical" "5m" "db"
        [("severity", "high"), ("team", "devops")] [("runbook", "wiki/db")]
        HttpOutcome.ok).2.2.labels ∧
     annotationsContract "DBDown" "db is down" [("runbook", "wiki/db")]
      (send_alert_with_curl 1000 "DBDown" "db is down" "critical" "5m" "db"
        [("severity", "high"), ("team", "devops")] [("runbook", "wiki/db")]
        HttpOutcome.ok).2.2.annotations ∧
     (send_alert_with_curl 1000 "DBDown" "db is down" "critical" "5m" "db"
        [("severity", "high"), ("team", "devops")] [("runbook", "wiki/db")]
        HttpOutcome.ok).2.2.startsAt = 1000 - 120 ∧
     (send_alert_with_curl 1000 "DBDown" "db is down" "critical" "5m" "db"
        [("severity", "high"), ("team", "devops")] [("runbook", "wiki/db")]
        HttpOutcome.ok).2.2.endsAt = none) ∧
    (labelsContract "DBDown" "critical" "db" [("severity", "high"), ("team", "devops")]
      (send_resolved_alert_with_curl 1000 "DBDown" "db is down" "critical" "db"
        [("severity", "high"), ("team", "devops")] [("runbook", "wiki/db")]
        HttpOutcome.ok).2.2.labels ∧
     annotationsContract "DBDown" "db is down" [("runbook", "wiki/db")]
      (send_resolved_alert_with_curl 1000 "DBDown" "db is down" "critical" "db"
        [("severity", "high"), ("team", "devops")] [("runbook", "wiki/db")]
        HttpOutcome.ok).2.2.annotations ∧
     (send_resolved_alert_with_curl 1000 "DBDown" "db is down" "critical" "db"
        [("severity", "high"), ("team", "devops")] [("runbook", "wiki/db")]
        HttpOutcome.ok).2.2.startsAt = 1000 - 120 ∧
     (send_resolved_alert_with_curl 1000 "DBDown" "db is down" "critical" "db"
        [("severity", "high"), ("team", "devops")] [("runbook", "wiki/db")]
        HttpOutcome.ok).2.2.endsAt = some 1000) :=
  ⟨⟨by decide, by decide, by decide, by decide⟩,
   c9_payload_contract 1000 "DBDown" "db is down" "critical" "5m" "db"
     [("severity", "high"), ("team", "devops")] [("runbook", "wiki/db")]
     HttpOutcome.ok (by decide) (by decide) (by decide) (by decide)⟩

/-- Counterexample for C2: the claim says duration parsing is total and
returns the 300-second default on any malformed input, but `"as"` ends in
`s` and `int("a")` raises `ValueError` — the parse fails instead of
defaulting. -/
theorem c2_counterexample : parse_duration_to_seconds "as" = none := by decide

/-- Claim C2, amended: `<int>s`/`<int>m`/`<int>h` parse to n, n·60, n·3600
seconds; a string not ending in `s`, `m` or `h` — for example `"garbage"` —
falls back to the fixed 300-second default; but parsing is not total: a
string that ends in a unit letter whose remainder is not a valid integer
makes `int()` raise `ValueError`.  The spec examples `parse("10s")=10`,
`parse("5m")=300`, `parse("1h")=3600`, `parse("garbage")=300` all hold. -/
theorem c2_amended :
    parse_duration_to_seconds "10s" = some 10 ∧
    parse_duration_to_seconds "5m" = some 300 ∧
    parse_duration_to_seconds "1h" = some 3600 ∧
    parse_duration_to_seconds "garbage" = some 300 ∧
    (∀ s : String, ¬ pyEndsWith s 's' → ¬ pyEndsWith s 'm' → ¬ pyEndsWith s 'h' →
      parse_duration_to_seconds s = some 300) ∧
    (∀ (s : String) (n : Int), pyEndsWith s 's' → pyInt (pyDropLast s) = some n →
      parse_duration_to_seconds s = some n) ∧
    (∀ (s : String) (n : Int), ¬ pyEndsWith s 's' → pyEndsWith s 'm' →
      pyInt (pyDropLast s) = some n → parse_duration_to_seconds s = some (n * 60)) ∧
    (∀ (s : String) (n : Int), ¬ pyEndsWith s 's' → ¬ pyEndsWith s 'm' →
      pyEndsWith s 'h' → pyInt (pyDropLast s) = some n →
      parse_duration_to_seconds s = some (n * 3600)) ∧
    (∀ s : String, pyEndsWith s 's' → pyInt (pyDropLast s) = none →
      parse_duration_to_seconds s = none) := by
  refine ⟨by decide, by decide, by decide, by decide, ?_, ?_, ?_, ?_, ?_⟩
  · intro s h1 h2 h3
    simp [parse_duration_to_seconds, h1, h2, h3]
  · intro s n h1 h2
    simp [parse_duration_to_seconds, h1, h2]
  · intro s n h1 h2 h3
    simp [parse_duration_to_seconds, h1, h2, h3]
  · intro s n h1 h2 h3 h4
    simp [parse_duration_to_seconds, h1, h2, h3, h4]
  · intro s h1 h2
    simp [parse_duration_to_seconds, h1, h2]

/-- Witness for C2 amended at concrete inputs for each quantified clause. -/
theorem c2_amended_witness :
    (¬ pyEndsWith "xyz" 's' ∧ ¬ pyEndsWith "xyz" 'm' ∧ ¬ pyEndsWith "xyz" 'h' ∧
      parse_duration_to_seconds "xyz" = some 300) ∧
    (pyEndsWith "7s" 's' = true ∧ pyInt (pyDropLast "7s") = some 7 ∧
      parse_duration_to_seconds "7s" = some 7) ∧
    (pyEndsWith "2h" 'h' = true ∧ pyInt (pyDropLast "2h") = some 2 ∧
      parse_duration_to_seconds "2h" = some (2 * 3600)) ∧
    (pyEndsWith "abcs" 's' = true ∧ pyInt (pyDropLast "abcs") = none ∧
      parse_duration_to_seconds "abcs" = none) :=
  ⟨⟨by decide, by decide, by decide,
     c2_amended.2.2.2.2.1 "xyz" (by decide) (by decide) (by decide)⟩,
   ⟨by decide, by decide, c2_amended.2.2.2.2.2.1 "7s" 7 (by decide) (by decide)⟩,
   ⟨by decide, by decide,
     c2_amended.2.2.2.2.2.2.2.1 "2h" 2 (by decide) (by decide) (by decide) (by decide)⟩,
   ⟨by decide, by decide, c2_amended.2.2.2.2.2.2.2.2 "abcs" (by decide) (by decide)⟩⟩

/-- Counterexample for C1: the claim says the timer task, upon waking, checks
the current record status and issues no resolve dispatch when the record is
absent; but on an empty store (record already deleted by a manual resolve)
the woken task still dispatches — the dispatch trace is non-empty. -/
theorem c1_counterexample :
    (auto_resolve_alert 0 (fun _ => true) HttpOutcome.ok "1s" "Sum" "Desc"
      "critical" "svc" [] [] "id-1" []).2 ≠ [] := by decide

/-- Claim C1, amended: the timer task never checks the record before acting —
upon waking (whenever its duration string parsed) it unconditionally issues
exactly one resolve dispatch, even when the record is already absent; only
the subsequent status update and file removal no-op in that case, leaving
the store unchanged.  Hence a manual resolve followed by the timer firing
produces a second resolve dispatch for the same id, and at most one dispatch
per id is not guaranteed. -/
theorem c1_amended (now : Int) (fsRemoveOk : String → Bool) (outcome : HttpOutcome)
    (duration_str summary description severity service : String)
    (custom_labels custom_annotations : List (String × String))
    (alert_id : String) (store : List StoredFile) (k : Int)
    (hparse : parse_duration_to_seconds duration_str = some k)
    (habsent : ∀ f ∈ store, f.data.id ≠ alert_id) :
    (auto_resolve_alert now fsRemoveOk outcome duration_str summary description
      severity service custom_labels custom_annotations alert_id store).2.length = 1 ∧
    (auto_resolve_alert now fsRemoveOk outcome duration_str summary description
      severity service custom_labels custom_annotations alert_id store).1 = store := by
  have hany : store.any (fun f => f.data.id = alert_id) = false := by
    simp only [List.any_eq_false, decide_eq_true_eq]
    exact habsent
  have hupd : update_alert_status store alert_id "resolved" (some now) now =
      (false, store) := by
    simp [update_alert_status, hany]
  have hrem : remove_alert_file fsRemoveOk store alert_id = (false, store) := by
    simp [remove_alert_file, hany]
  by_cases hok : (send_resolved_alert_with_curl now summary description severity
      service custom_labels custom_annotations outcome).1 = true
  · by_cases hid : alert_id = ""
    · simp [auto_resolve_alert, hparse, hok, hid]
    · simp [auto_resolve_alert, hparse, hok, hid, hupd, hrem]
  · simp only [Bool.not_eq_true] at hok
    simp [auto_resolve_alert, hparse, hok]

/-- Witness for C1 amended: a concrete wake of the timer with the record
already gone still issues exactly one dispatch. -/
theorem c1_amended_witness :
    (parse_duration_to_seconds "1s" = some 1 ∧
      (∀ f ∈ ([] : List StoredFile), f.data.id ≠ "id-1")) ∧
    ((auto_resolve_alert 0 (fun _ => true) HttpOutcome.ok "1s" "Sum" "Desc"
        "critical" "svc" [] [] "id-1" []).2.length = 1 ∧
      (auto_resolve_alert 0 (fun _ => true) HttpOutcome.ok "1s" "Sum" "Desc"
        "critical" "svc" [] [] "id-1" []).1 = []) :=
  ⟨⟨by decide, by intro f hf; cases hf⟩,
   c1_amended 0 (fun _ => true) HttpOutcome.ok "1s" "Sum" "Desc" "critical" "svc"
     [] [] "id-1" [] 1 (by decide) (by intro f hf; cases hf)⟩

/-- Claim C3 (code bug): for an id absent from the store,
`resolve_sent_alert` issues no dispatch and deletes nothing, but instead of
returning a structured `success=false` result its loop falls through and the
function returns `None`; the endpoint's tuple unpacking of that `None` then
raises a `TypeError`.  Evaluated here at the failing input (empty store,
id `"missing"`). -/
theorem c3_notfound_falls_through :
    resolve_sent_alert 0 (fun _ => true) HttpOutcome.ok [] "missing" =
      (none, [], []) ∧
    (resolve_alert_endpoint 0 (fun _ => true) HttpOutcome.ok [] "missing").1 =
      Except.error "TypeError: cannot unpack non-iterable NoneType object" := by
  constructor
  · decide
  · rfl

/-- Claim C10: when the backend resolve dispatch succeeds but the store
delete fails, `resolve_sent_alert` still returns `success=true` with the
cleanup-failure message, and the record remains persisted in the store. -/
theorem c10_partial_success (now : Int) (fsRemoveOk : String → Bool)
    (store : List StoredFile) (alert_id : String) (f : StoredFile)
    (hfind : store.find? (fun g => g.data.id = alert_id) = some f)
    (hrm : fsRemoveOk alert_id = false) :
    (resolve_sent_alert now fsRemoveOk HttpOutcome.ok store alert_id).1 =
      some (true, "Alert resolved but file cleanup failed") ∧
    (resolve_sent_alert now fsRemoveOk HttpOutcome.ok store alert_id).2.1 = store ∧
    f ∈ (resolve_sent_alert now fsRemoveOk HttpOutcome.ok store alert_id).2.1 := by
  have hmem : f ∈ store := List.mem_of_find?_eq_some hfind
  have hany : store.any (fun g => g.data.id = alert_id) = true := by
    rw [List.any_eq_true]
    refine ⟨f, hmem, ?_⟩
    have hp := List.find?_some hfind
    simpa using hp
  have hrem : remove_alert_file fsRemoveOk store alert_id = (false, store) := by
    simp [remove_alert_file, hany, hrm]
  rw [resolve_sent_alert, hfind]
  simp [send_resolved_alert_with_curl_fst, HttpOutcome.isOk, hrem, hmem]

/-- Witness for C10: a one-record store whose file removal fails. -/
theorem c10_partial_success_witness :
    (([demoFile] : List StoredFile).find? (fun g => g.data.id = "a1") = some demoFile ∧
     (fun _ => false) "a1" = false) ∧
    ((resolve_sent_alert 7 (fun _ => false) HttpOutcome.ok [demoFile] "a1").1 =
      some (true, "Alert resolved but file cleanup failed") ∧
     (resolve_sent_alert 7 (fun _ => false) HttpOutcome.ok [demoFile] "a1").2.1 =
      [demoFile] ∧
     demoFile ∈ (resolve_sent_alert 7 (fun _ => false) HttpOutcome.ok
        [demoFile] "a1").2.1) :=
  ⟨⟨by decide, rfl⟩,
   c10_partial_success 7 (fun _ => false) [demoFile] "a1" demoFile (by decide) rfl⟩

/-- Claim C6: a fire intent whose severity is outside {info, warning,
critical}, or with a required field missing, is rejected before any
dispatch: no backend call is issued, no store record is created, no timer is
started, the history is untouched, and the caller's original field values
are echoed back in the error response (the custom labels and annotations
are echoed as the dicts assembled from the submitted key/value lists). -/
theorem c6_validation_rejects (now : Int) (newId : String) (outcome : HttpOutcome)
    (summary description severity duration service : String)
    (label_keys label_values annotation_keys annotation_values : List String)
    (st : SendState)
    (h : severity ∉ ["info", "warning", "critical"] ∨
         ¬ requiredFieldsFilled summary description severity duration service) :
    (send_alert now newId outcome summary description severity duration service
      label_keys label_values annotation_keys annotation_values st).2.2 = [] ∧
    (send_alert now newId outcome summary description severity duration service
      label_keys label_values annotation_keys annotation_values st).2.1 = st ∧
    (send_alert now newId outcome summary description severity duration service
      label_keys label_values annotation_keys annotation_values st).1.message_type =
      "error" ∧
    (send_alert now newId outcome summary description severity duration service
      label_keys label_values annotation_keys annotation_values st).1.form_data =
      { summary := summary, description := description, severity := severity
        duration := duration, service := service
        custom_labels := build_custom label_keys label_values
        custom_annotations := build_custom annotation_keys annotation_values } := by
  by_cases hreq : requiredFieldsFilled summary description severity duration service
  · rcases h with hs | hr
    · simp [send_alert, hreq, hs]
    · exact absurd hreq hr
  · simp [send_alert, hreq]

/-- Witness for C6 at the spec's own example: `severity="urgent"`. -/
theorem c6_validation_rejects_witness :
    (("urgent" : String) ∉ (["info", "warning", "critical"] : List String) ∨
      ¬ requiredFieldsFilled "S" "D" "urgent" "5m" "svc") ∧
    ((send_alert 0 "id-9" HttpOutcome.ok "S" "D" "urgent" "5m" "svc"
        [] [] [] [] demoState).2.2 = [] ∧
     (send_alert 0 "id-9" HttpOutcome.ok "S" "D" "urgent" "5m" "svc"
        [] [] [] [] demoState).2.1 = demoState ∧
     (send_alert 0 "id-9" HttpOutcome.ok "S" "D" "urgent" "5m" "svc"
        [] [] [] [] demoState).1.message_type = "error" ∧
     (send_alert 0 "id-9" HttpOutcome.ok "S" "D" "urgent" "5m" "svc"
        [] [] [] [] demoState).1.form_data =
      { summary := "S", description := "D", severity := "urgent"
        duration := "5m", service := "svc"
        custom_labels := build_custom [] []
        custom_annotations := build_custom [] [] }) :=
  ⟨Or.inl (by decide),
   c6_validation_rejects 0 "id-9" HttpOutcome.ok "S" "D" "urgent" "5m" "svc"
     [] [] [] [] demoState (Or.inl (by decide))⟩

/-- Claim C4: when validation passes and the backend dispatch fails, the
handler returns the dispatcher's failure message with an error flag and the
system state is unchanged — no store record, no timer, no history update;
the one dispatch that was attempted carries the built fire payload. -/
theorem c4_failed_fire_no_state_change (now : Int) (newId : String)
    (outcome : HttpOutcome)
    (summary description severity duration service : String)
    (label_keys label_values annotation_keys annotation_values : List String)
    (st : SendState)
    (hreq : requiredFieldsFilled summary description severity duration service)
    (hsev : severity ∈ ["info", "warning", "critical"])
    (hfail : outcome.isOk = false) :
    (send_alert now newId outcome summary description severity duration service
      label_keys label_values annotation_keys annotation_values st).2.1 = st ∧
    (send_alert now newId outcome summary description severity duration service
      label_keys label_values annotation_keys annotation_values st).1.message =
      (send_alert_with_curl now (pyStrip summary) (pyStrip description)
        (pyStrip severity) (pyStrip duration) (pyStrip service)
        (build_custom label_keys label_values)
        (build_custom annotation_keys annotation_values) outcome).2.1 ∧
    (send_alert now newId outcome summary description severity duration service
      label_keys label_values annotation_keys annotation_values st).1.message_type =
      "error" ∧
    (send_alert now newId outcome summary description severity duration service
      label_keys label_values annotation_keys annotation_values st).2.2 =
      [(send_alert_with_curl now (pyStrip summary) (pyStrip description)
        (pyStrip severity) (pyStrip duration) (pyStrip service)
        (build_custom label_keys label_values)
        (build_custom annotation_keys annotation_values) outcome).2.2] := by
  have hsev' : severity = "info" ∨ severity = "warning" ∨ severity = "critical" := by
    simpa using hsev
  rcases hsev' with h | h | h <;> subst h <;>
    simp [send_alert, hreq, send_alert_with_curl_fst, hfail]

/-- Witness for C4: a concrete timed-out dispatch leaves the state alone. -/
theorem c4_failed_fire_no_state_change_witness :
    (requiredFieldsFilled "S" "D" "info" "10s" "svc" ∧
     ("info" : String) ∈ (["info", "warning", "critical"] : List String) ∧
     HttpOutcome.timeout.isOk = false) ∧
    ((send_alert 0 "id-9" HttpOutcome.timeout "S" "D" "info" "10s" "svc"
        [] [] [] [] demoState).2.1 = demoState ∧
     (send_alert 0 "id-9" HttpOutcome.timeout "S" "D" "info" "10s" "svc"
        [] [] [] [] demoState).1.message =
      (send_alert_with_curl 0 (pyStrip "S") (pyStrip "D") (pyStrip "info")
        (pyStrip "10s") (pyStrip "svc") (build_custom [] []) (build_custom [] [])
        HttpOutcome.timeout).2.1 ∧
     (send_alert 0 "id-9" HttpOutcome.timeout "S" "D" "info" "10s" "svc"
        [] [] [] [] demoState).1.message_type = "error" ∧
     (send_alert 0 "id-9" HttpOutcome.timeout "S" "D" "info" "10s" "svc"
        [] [] [] [] demoState).2.2 =
      [(send_alert_with_curl 0 (pyStrip "S") (pyStrip "D") (pyStrip "info")
        (pyStrip "10s") (pyStrip "svc") (build_custom [] []) (build_custom [] [])
        HttpOutcome.timeout).2.2]) :=
  ⟨⟨by decide, by decide, rfl⟩,
   c4_failed_fire_no_state_change 0 "id-9" HttpOutcome.timeout "S" "D" "info" "10s"
     "svc" [] [] [] [] demoState (by decide) (by decide) rfl⟩

/-- Claim C7: `cleanup(days_old)` deletes exactly the records whose file
mtime is older than the `now − days_old` cutoff, keeps every newer record,
issues no backend dispatch, returns the count removed, and a second run on
the result removes 0 records. -/
theorem c7_cleanup_exact_and_idempotent (now days_old : Int)
    (store : List StoredFile) :
    (cleanup_old_alerts now days_old store).1 =
      (store.filter (fun f => f.mtime < now - days_old * 86400)).length ∧
    (∀ f ∈ store, f.mtime < now - days_old * 86400 →
      f ∉ (cleanup_old_alerts now days_old store).2.1) ∧
    (∀ f ∈ store, ¬ f.mtime < now - days_old * 86400 →
      f ∈ (cleanup_old_alerts now days_old store).2.1) ∧
    (∀ f ∈ (cleanup_old_alerts now days_old store).2.1,
      f ∈ store ∧ ¬ f.mtime < now - days_old * 86400) ∧
    (cleanup_old_alerts now days_old store).2.2 = [] ∧
    (cleanup_old_alerts now days_old (cleanup_old_alerts now days_old store).2.1).1 =
      0 := by
  refine ⟨rfl, ?_, ?_, ?_, rfl, ?_⟩
  · intro f hf hold hmem
    rw [cleanup_old_alerts] at hmem
    simp only [List.mem_filter, decide_eq_true_eq] at hmem
    exact hmem.2 hold
  · intro f hf hnew
    rw [cleanup_old_alerts]
    simp only [List.mem_filter, decide_eq_true_eq]
    exact ⟨hf, hnew⟩
  · intro f hmem
    rw [cleanup_old_alerts] at hmem
    simp only [List.mem_filter, decide_eq_true_eq] at hmem
    exact hmem
  · rw [cleanup_old_alerts, cleanup_old_alerts]
    simp only [List.length_eq_zero, List.filter_eq_nil_iff, List.mem_filter,
      decide_eq_true_eq]
    intro f hmem
    exact hmem.2

/-- Witness for C7: a two-record store with one stale and one fresh file. -/
theorem c7_cleanup_exact_and_idempotent_witness :
    (demoFile ∈ [demoFile, demoFile2] ∧ demoFile.mtime < 1000000 - 7 * 86400 ∧
     demoFile2 ∈ [demoFile, demoFile2] ∧ ¬ demoFile2.mtime < 1000000 - 7 * 86400) ∧
    ((cleanup_old_alerts 1000000 7 [demoFile, demoFile2]).1 =
      ([demoFile, demoFile2].filter
        (fun f => f.mtime < 1000000 - 7 * 86400)).length ∧
     demoFile ∉ (cleanup_old_alerts 1000000 7 [demoFile, demoFile2]).2.1 ∧
     demoFile2 ∈ (cleanup_old_alerts 1000000 7 [demoFile, demoFile2]).2.1 ∧
     (cleanup_old_alerts 1000000 7
       (cleanup_old_alerts 1000000 7 [demoFile, demoFile2]).2.1).1 = 0) :=
  ⟨⟨by decide, by decide, by decide, by decide⟩,
   (c7_cleanup_exact_and_idempotent 1000000 7 [demoFile, demoFile2]).1,
   (c7_cleanup_exact_and_idempotent 1000000 7 [demoFile, demoFile2]).2.1
     demoFile (by decide) (by decide),
   (c7_cleanup_exact_and_idempotent 1000000 7 [demoFile, demoFile2]).2.2.1
     demoFile2 (by decide) (by decide),
   (c7_cleanup_exact_and_idempotent 1000000 7 [demoFile, demoFile2]).2.2.2.2.2⟩

theorem closeAllGo_trace_length (now : Int) (fs : String → Bool)
    (outc : String → HttpOutcome) :
    ∀ (snap : List AlertRecord) (store : List StoredFile) (closed : Nat)
      (errors : List String) (ds : List AlertPayload),
      ((closeAllGo now fs outc snap store closed errors ds).2.2.2).length =
        ds.length + snap.length := by
  intro snap
  induction snap with
  | nil => intro store closed errors ds; simp [closeAllGo]
  | cons a rest ih =>
    intro store closed errors ds
    simp only [closeAllGo]
    split
    · split
      · rw [ih]; simp [List.length_append]; omega
      · rw [ih]; simp [List.length_append]; omega
    · rw [ih]; simp [List.length_append]; omega

theorem remove_alert_file_head (tl : List StoredFile) (f : StoredFile)
    (hfresh : ∀ g ∈ tl, g.data.id ≠ f.data.id) :
    remove_alert_file (fun _ => true) (f :: tl) f.data.id = (true, tl) := by
  have hany : (f :: tl).any (fun g => g.data.id = f.data.id) = true := by
    simp [List.any_cons]
  rw [remove_alert_file, if_pos hany, if_pos rfl]
  refine congrArg (Prod.mk true) ?_
  have hhead : decide (f.data.id ≠ f.data.id) = false := by simp
  rw [List.filter_cons, hhead]
  simp only [Bool.false_eq_true, if_false]
  rw [List.filter_eq_self]
  intro g hg
  simpa using hfresh g hg

theorem closeAllGo_all_ok (now : Int) :
    ∀ (l : List StoredFile) (closed : Nat) (errors : List String)
      (ds : List AlertPayload),
      (l.map (fun f => f.data.id)).Nodup →
      (closeAllGo now (fun _ => true) (fun _ => HttpOutcome.ok)
        (l.map (fun f => f.data)) l closed errors ds).1 = closed + l.length ∧
      (closeAllGo now (fun _ => true) (fun _ => HttpOutcome.ok)
        (l.map (fun f => f.data)) l closed errors ds).2.1 = errors ∧
      (closeAllGo now (fun _ => true) (fun _ => HttpOutcome.ok)
        (l.map (fun f => f.data)) l closed errors ds).2.2.1 = [] := by
  intro l
  induction l with
  | nil => intro closed errors ds _; simp [closeAllGo]
  | cons f tl ih =>
    intro closed errors ds hnd
    have hcons : (∀ x ∈ tl, ¬ x.data.id = f.data.id) ∧
        (tl.map (fun g => g.data.id)).Nodup := by simpa using hnd
    have hnd' := hcons.2
    have hfresh : ∀ g ∈ tl, g.data.id ≠ f.data.id := fun g hg => hcons.1 g hg
    have hrm := remove_alert_file_head tl f hfresh
    simp only [List.map_cons, closeAllGo, send_resolved_alert_with_curl_fst,
      HttpOutcome.isOk, if_true, hrm]
    obtain ⟨h1, h2, h3⟩ := ih (closed + 1) errors
      (ds ++ [(send_resolved_alert_with_curl now f.data.summary f.data.description
        f.data.severity f.data.service f.data.custom_labels
        f.data.custom_annotations HttpOutcome.ok).2.2]) hnd'
    refine ⟨?_, h2, h3⟩
    rw [h1]
    simp only [List.length_cons]
    omega

/-- Claim C5: `closeAll()` iterates the full snapshot sequentially (one
resolve dispatch per record regardless of individual outcomes, so it never
stops early), and when every backend resolve and every file delete succeeds
it returns `closed_count = N` with an empty error list and an empty store
afterward. -/
theorem c5_close_all (now : Int) (store : List StoredFile)
    (hnd : (store.map (fun f => f.data.id)).Nodup) :
    (∀ (fsRemoveOk : String → Bool) (outcome : String → HttpOutcome),
      ((close_all_alerts now fsRemoveOk outcome store).2.2.2).length =
        store.length) ∧
    (close_all_alerts now (fun _ => true) (fun _ => HttpOutcome.ok) store).1 =
      store.length ∧
    (close_all_alerts now (fun _ => true) (fun _ => HttpOutcome.ok) store).2.1 =
      [] ∧
    (close_all_alerts now (fun _ => true) (fun _ => HttpOutcome.ok)
      store).2.2.1 = [] := by
  constructor
  · intro fsRemoveOk outcome
    rw [close_all_alerts, closeAllGo_trace_length]
    simp [load_sent_alerts]
  · have h := closeAllGo_all_ok now store 0 [] [] hnd
    rw [close_all_alerts, load_sent_alerts]
    exact ⟨by rw [h.1]; omega, h.2.1, h.2.2⟩

/-- Witness for C5: two stored alerts with distinct ids, all calls
succeeding. -/
theorem c5_close_all_witness :
    (([demoFile, demoFile2].map (fun f => f.data.id)).Nodup) ∧
    ((∀ (fsRemoveOk : String → Bool) (outcome : String → HttpOutcome),
      ((close_all_alerts 5 fsRemoveOk outcome [demoFile, demoFile2]).2.2.2).length =
        ([demoFile, demoFile2] : List StoredFile).length) ∧
     (close_all_alerts 5 (fun _ => true) (fun _ => HttpOutcome.ok)
       [demoFile, demoFile2]).1 = ([demoFile, demoFile2] : List StoredFile).length ∧
     (close_all_alerts 5 (fun _ => true) (fun _ => HttpOutcome.ok)
       [demoFile, demoFile2]).2.1 = [] ∧
     (close_all_alerts 5 (fun _ => true) (fun _ => HttpOutcome.ok)
       [demoFile, demoFile2]).2.2.1 = []) :=
  ⟨by decide, c5_close_all 5 [demoFile, demoFile2] (by decide)⟩

theorem choice_mem (pool : List String) (i : Nat) (h : pool ≠ []) :
    choice pool i ∈ pool := by
  rw [choice]
  have hlt : i % pool.length < pool.length :=
    Nat.mod_lt _ (List.length_pos.mpr h)
  rw [List.getD_eq_getElem pool "" hlt]
  exact List.getElem_mem hlt

theorem dictGet_base_labels_severity (su se sv : String) :
    dictGet (buildLabels su se sv []) "severity" = some se := rfl

theorem dictGet_base_labels_service (su se sv : String) :
    dictGet (buildLabels su se sv []) "service" = some sv := rfl

theorem bulkGo_trace_length (now : Int) (duration : String) (pick : Nat → BulkPick)
    (outc : Nat → HttpOutcome) (ids : Nat → String) :
    ∀ (idxs : List Nat) (gen : Nat) (errors : List String)
      (store : List StoredFile) (timers : List TimerTask) (ds : List AlertPayload),
      ((bulkGo now duration pick outc ids idxs gen errors store timers
        ds).2.2.2.2).length = ds.length + idxs.length := by
  intro idxs
  induction idxs with
  | nil => intro gen errors store timers ds; simp [bulkGo]
  | cons i rest ih =>
    intro gen errors store timers ds
    simp only [bulkGo]
    split
    · rw [ih]; simp [List.length_append]; omega
    · rw [ih]; simp [List.length_append]; omega

theorem bulkGo_generated (now : Int) (duration : String) (pick : Nat → BulkPick)
    (outc : Nat → HttpOutcome) (ids : Nat → String) :
    ∀ (idxs : List Nat) (gen : Nat) (errors : List String)
      (store : List StoredFile) (timers : List TimerTask) (ds : List AlertPayload),
      (bulkGo now duration pick outc ids idxs gen errors store timers ds).1 =
        gen + (idxs.filter (fun i => (outc i).isOk)).length := by
  intro idxs
  induction idxs with
  | nil => intro gen errors store timers ds; simp [bulkGo]
  | cons i rest ih =>
    intro gen errors store timers ds
    have hfst := send_alert_with_curl_fst now (bulkAlertData pick i).1
      (bulkAlertData pick i).2.1 (bulkAlertData pick i).2.2.1 duration
      (bulkAlertData pick i).2.2.2 [] [] (outc i)
    by_cases hok : (outc i).isOk = true
    · simp only [bulkGo, hfst, hok, if_true, List.filter_cons, hok]
      rw [ih]
      simp only [List.length_cons]
      omega
    · simp only [Bool.not_eq_true] at hok
      simp only [bulkGo, hfst, hok, Bool.false_eq_true, if_false, List.filter_cons, hok]
      rw [ih]

theorem bulkGo_timers_length (now : Int) (duration : String) (pick : Nat → BulkPick)
    (outc : Nat → HttpOutcome) (ids : Nat → String) :
    ∀ (idxs : List Nat) (gen : Nat) (errors : List String)
      (store : List StoredFile) (timers : List TimerTask) (ds : List AlertPayload),
      (bulkGo now duration pick outc ids idxs gen errors store timers
        ds).2.2.2.1.length =
        timers.length + (idxs.filter (fun i => (outc i).isOk)).length := by
  intro idxs
  induction idxs with
  | nil => intro gen errors store timers ds; simp [bulkGo]
  | cons i rest ih =>
    intro gen errors store timers ds
    have hfst := send_alert_with_curl_fst now (bulkAlertData pick i).1
      (bulkAlertData pick i).2.1 (bulkAlertData pick i).2.2.1 duration
      (bulkAlertData pick i).2.2.2 [] [] (outc i)
    by_cases hok : (outc i).isOk = true
    · simp only [bulkGo, hfst, hok, if_true, List.filter_cons, hok]
      rw [ih]
      simp only [List.length_append, List.length_cons, List.length_nil]
      omega
    · simp only [Bool.not_eq_true] at hok
      simp only [bulkGo, hfst, hok, Bool.false_eq_true, if_false, List.filter_cons, hok]
      rw [ih]

theorem bulkGo_store_length (now : Int) (duration : String) (pick : Nat → BulkPick)
    (outc : Nat → HttpOutcome) (ids : Nat → String) :
    ∀ (idxs : List Nat) (gen : Nat) (errors : List String)
      (store : List StoredFile) (timers : List TimerTask) (ds : List AlertPayload),
      (∀ i ∈ idxs, ∀ f ∈ store, f.data.id ≠ ids i) →
      idxs.Pairwise (fun i j => ids i ≠ ids j) →
      (bulkGo now duration pick outc ids idxs gen errors store timers
        ds).2.2.1.length =
        store.length + (idxs.filter (fun i => (outc i).isOk)).length := by
  intro idxs
  induction idxs with
  | nil => intro gen errors store timers ds _ _; simp [bulkGo]
  | cons i rest ih =>
    intro gen errors store timers ds hfresh hpw
    have hfst := send_alert_with_curl_fst now (bulkAlertData pick i).1
      (bulkAlertData pick i).2.1 (bulkAlertData pick i).2.2.1 duration
      (bulkAlertData pick i).2.2.2 [] [] (outc i)
    have hpw' := (List.pairwise_cons.mp hpw).2
    have hhead := (List.pairwise_cons.mp hpw).1
    by_cases hok : (outc i).isOk = true
    · have hany : store.any (fun f => f.data.id = ids i) = false := by
        simp only [List.any_eq_false, decide_eq_true_eq]
        exact fun f hf => hfresh i (List.mem_cons_self i rest) f hf
      simp only [bulkGo, hfst, hok, if_true, List.filter_cons, hok,
        add_sent_alert, save_alert_to_file, hany, Bool.false_eq_true, if_false]
      rw [ih]
      · simp only [List.length_append, List.length_cons, List.length_nil]
        omega
      · intro j hj f hf
        rcases List.mem_append.mp hf with hf' | hf'
        · exact hfresh j (List.mem_cons_of_mem i hj) f hf'
        · have : f.data.id = ids i := by
            rcases List.mem_singleton.mp hf' with rfl
            rfl
          rw [this]
          exact hhead j hj
      · exact hpw'
    · simp only [Bool.not_eq_true] at hok
      simp only [bulkGo, hfst, hok, Bool.false_eq_true, if_false, List.filter_cons, hok]
      rw [ih]
      · intro j hj f hf
        exact hfresh j (List.mem_cons_of_mem i hj) f hf
      · exact hpw'

theorem bulkGo_payload_pools (now : Int) (duration : String) (pick : Nat → BulkPick)
    (outc : Nat → HttpOutcome) (ids : Nat → String) :
    ∀ (idxs : List Nat) (gen : Nat) (errors : List String)
      (store : List StoredFile) (timers : List TimerTask) (ds : List AlertPayload),
      (∀ p ∈ ds, (∃ sev ∈ severities, dictGet p.labels "severity" = some sev) ∧
        (∃ svc ∈ service_names, dictGet p.labels "service" = some svc)) →
      ∀ p ∈ (bulkGo now duration pick outc ids idxs gen errors store timers
        ds).2.2.2.2,
        (∃ sev ∈ severities, dictGet p.labels "severity" = some sev) ∧
        (∃ svc ∈ service_names, dictGet p.labels "service" = some svc) := by
  intro idxs
  induction idxs with
  | nil =>
    intro gen errors store timers ds hds
    simpa [bulkGo] using hds
  | cons i rest ih =>
    intro gen errors store timers ds hds
    have hsev : (bulkAlertData pick i).2.2.1 ∈ severities :=
      choice_mem severities (pick i).sev (by decide)
    have hsvc : (bulkAlertData pick i).2.2.2 ∈ service_names :=
      choice_mem service_names (pick i).svc (by decide)
    have hpay : ∀ p ∈ ds ++ [(send_alert_with_curl now (bulkAlertData pick i).1
        (bulkAlertData pick i).2.1 (bulkAlertData pick i).2.2.1 duration
        (bulkAlertData pick i).2.2.2 [] [] (outc i)).2.2],
        (∃ sev ∈ severities, dictGet p.labels "severity" = some sev) ∧
        (∃ svc ∈ service_names, dictGet p.labels "service" = some svc) := by
      intro p hp
      rcases List.mem_append.mp hp with hp' | hp'
      · exact hds p hp'
      · rcases List.mem_singleton.mp hp' with rfl
        rw [send_alert_with_curl_payload]
        exact ⟨⟨(bulkAlertData pick i).2.2.1, hsev,
            dictGet_base_labels_severity _ _ _⟩,
          ⟨(bulkAlertData pick i).2.2.2, hsvc, dictGet_base_labels_service _ _ _⟩⟩
    have hfst := send_alert_with_curl_fst now (bulkAlertData pick i).1
      (bulkAlertData pick i).2.1 (bulkAlertData pick i).2.2.1 duration
      (bulkAlertData pick i).2.2.2 [] [] (outc i)
    by_cases hok : (outc i).isOk = true
    · simp only [bulkGo, hfst, hok, if_true]
      exact ih _ _ _ _ _ hpay
    · simp only [Bool.not_eq_true] at hok
      simp only [bulkGo, hfst, hok, Bool.false_eq_true, if_false]
      exact ih _ _ _ _ _ hpay

/-- Claim C8: `bulkGenerate(count, duration)` issues exactly `count` fire
attempts, each with a severity from {info, warning, critical} and a service
from the fixed pool, never aborts the loop on an individual failure, creates
one store record and one timer per successful dispatch only (assuming the
generated ids are fresh and pairwise distinct, as UUIDs are), and the
returned generated count equals the number of successful dispatches. -/
theorem c8_bulk_generate (now : Int) (count : Nat) (duration : String)
    (pick : Nat → BulkPick) (outc : Nat → HttpOutcome) (ids : Nat → String)
    (store : List StoredFile) (timers : List TimerTask)
    (hfresh : ∀ i < count, ∀ f ∈ store, f.data.id ≠ ids i)
    (hinj : ∀ i < count, ∀ j < count, i ≠ j → ids i ≠ ids j) :
    ((bulk_generate_alerts now count duration pick outc ids store
      timers).2.2.2.2).length = count ∧
    (bulk_generate_alerts now count duration pick outc ids store timers).1 =
      ((List.range count).filter (fun i => (outc i).isOk)).length ∧
    (bulk_generate_alerts now count duration pick outc ids store
      timers).2.2.2.1.length =
      timers.length + ((List.range count).filter (fun i => (outc i).isOk)).length ∧
    (bulk_generate_alerts now count duration pick outc ids store
      timers).2.2.1.length =
      store.length + ((List.range count).filter (fun i => (outc i).isOk)).length ∧
    (∀ p ∈ (bulk_generate_alerts now count duration pick outc ids store
        timers).2.2.2.2,
      (∃ sev ∈ severities, dictGet p.labels "severity" = some sev) ∧
      (∃ svc ∈ service_names, dictGet p.labels "service" = some svc)) := by
  refine ⟨?_, ?_, ?_, ?_, ?_⟩
  · rw [bulk_generate_alerts, bulkGo_trace_length]
    simp [List.length_range]
  · rw [bulk_generate_alerts, bulkGo_generated]
    simp
  · rw [bulk_generate_alerts, bulkGo_timers_length]
  · rw [bulk_generate_alerts, bulkGo_store_length]
    · intro i hi f hf
      exact hfresh i (List.mem_range.mp hi) f hf
    · refine (List.pairwise_lt_range count).imp_of_mem ?_
      intro i j hi hj hij
      exact hinj i (List.mem_range.mp hi) j (List.mem_range.mp hj) (Nat.ne_of_lt hij)
  · rw [bulk_generate_alerts]
    exact bulkGo_payload_pools now duration pick outc ids _ _ _ _ _ _
      (by intro p hp; cases hp)

/-- Witness for C8: two iterations, the first dispatch succeeding and the
second timing out, over a one-record store with fresh ids. -/
theorem c8_bulk_generate_witness :
    ((∀ i < 2, ∀ f ∈ ([demoFile] : List StoredFile),
        f.data.id ≠ (if i = 0 then "b0" else "b1")) ∧
     (∀ i < 2, ∀ j < 2, i ≠ j →
        (if i = 0 then "b0" else "b1") ≠ (if j = 0 then "b0" else "b1"))) ∧
    (((bulk_generate_alerts 0 2 "5m" (fun _ => ⟨0, 0, 0, 0, 0⟩)
        (fun i => if i = 0 then HttpOutcome.ok else HttpOutcome.timeout)
        (fun i => if i = 0 then "b0" else "b1") [demoFile] []).2.2.2.2).length = 2 ∧
     (bulk_generate_alerts 0 2 "5m" (fun _ => ⟨0, 0, 0, 0, 0⟩)
        (fun i => if i = 0 then HttpOutcome.ok else HttpOutcome.timeout)
        (fun i => if i = 0 then "b0" else "b1") [demoFile] []).1 =
      ((List.range 2).filter (fun i =>
        (if i = 0 then HttpOutcome.ok else HttpOutcome.timeout).isOk)).length ∧
     (bulk_generate_alerts 0 2 "5m" (fun _ => ⟨0, 0, 0, 0, 0⟩)
        (fun i => if i = 0 then HttpOutcome.ok else HttpOutcome.timeout)
        (fun i => if i = 0 then "b0" else "b1") [demoFile] []).2.2.2.1.length =
      ([] : List TimerTask).length + ((List.range 2).filter (fun i =>
        (if i = 0 then HttpOutcome.ok else HttpOutcome.timeout).isOk)).length ∧
     (bulk_generate_alerts 0 2 "5m" (fun _ => ⟨0, 0, 0, 0, 0⟩)
        (fun i => if i = 0 then HttpOutcome.ok else HttpOutcome.timeout)
        (fun i => if i = 0 then "b0" else "b1") [demoFile] []).2.2.1.length =
      ([demoFile] : List StoredFile).length + ((List.range 2).filter (fun i =>
        (if i = 0 then HttpOutcome.ok else HttpOutcome.timeout).isOk)).length ∧
     (∀ p ∈ (bulk_generate_alerts 0 2 "5m" (fun _ => ⟨0, 0, 0, 0, 0⟩)
        (fun i => if i = 0 then HttpOutcome.ok else HttpOutcome.timeout)
        (fun i => if i = 0 then "b0" else "b1") [demoFile] []).2.2.2.2,
      (∃ sev ∈ severities, dictGet p.labels "severity" = some sev) ∧
      (∃ svc ∈ service_names, dictGet p.labels "service" = some svc))) :=
  ⟨⟨by decide, by decide⟩,
   c8_bulk_generate 0 2 "5m" (fun _ => ⟨0, 0, 0, 0, 0⟩)
     (fun i => if i = 0 then HttpOutcome.ok else HttpOutcome.timeout)
     (fun i => if i = 0 then "b0" else "b1") [demoFile] []
     (by decide) (by decide)⟩

end Adam
